import Mathlib

/-!
Shallow embedding of the authentication/token-lifecycle subsystem of the
NewsHub backend (`src/auth/account/`): the user model, the two single-use
token stores, the login-attempt log, and the serializer/view operations of
`models.py`, `serializers.py`, `views.py`, `authentication.py`.

Time is a `Nat` passed explicitly where the source calls `timezone.now()`.
The database is an explicit record of lists; Django ORM writes become pure
list updates keyed on primary keys.  Password hashing (`set_password` /
`check_password`) is modelled as an injective tagging function, since the
claims depend only on whether the checked plaintext matches the one stored.
-/

/-- Django's salted password hash, modelled as an injective tag on the
plaintext: `check_password p` holds iff `p` is the password last stored. -/
def hashPassword (p : String) : String := "pbkdf2-sha256$" ++ p

/-- Python's `str.lower()`, character-wise (defined explicitly so that it
evaluates by kernel reduction). -/
def pyLower (s : String) : String := ⟨s.data.map Char.toLower⟩

/-- Python's whitespace test used by `str.strip()`. -/
def isPySpace (c : Char) : Bool :=
  c == ' ' || c == '\t' || c == '\n' || c == '\r' || c == '\x0b' || c == '\x0c'

/-- Python's `str.strip()`: drop whitespace from both ends. -/
def pyStrip (s : String) : String :=
  ⟨((s.data.dropWhile isPySpace).reverse.dropWhile isPySpace).reverse⟩

/-- `account.models.MyUser`: id, unique email, name, password hash and the
four boolean flags.  Timestamps other than expiry are irrelevant to the
claims and omitted. -/
structure MyUser where
  id : Nat
  email : String
  name : String
  passwordHash : String
  is_active : Bool
  is_staff : Bool
  is_superuser : Bool
  email_verified : Bool
deriving Repr, DecidableEq

/-- `AbstractBaseUser.check_password`. -/
def MyUser.check_password (u : MyUser) (pw : String) : Bool :=
  hashPassword pw == u.passwordHash

/-- `AbstractBaseUser.set_password` (the subsequent `save` is the database
write, modelled separately). -/
def MyUser.set_password (u : MyUser) (pw : String) : MyUser :=
  { u with passwordHash := hashPassword pw }

/-- `account.models.EmailVerificationToken`. -/
structure EmailVerificationToken where
  id : Nat
  userId : Nat
  token : String
  created_at : Nat
  expires_at : Nat
  is_used : Bool
deriving Repr, DecidableEq

/-- `EmailVerificationToken.is_valid`:
`not self.is_used and timezone.now() < self.expires_at`. -/
def EmailVerificationToken.is_valid (t : EmailVerificationToken) (now : Nat) : Bool :=
  !t.is_used && decide (now < t.expires_at)

/-- `EmailVerificationToken.make_as_used`. -/
def EmailVerificationToken.make_as_used (t : EmailVerificationToken) : EmailVerificationToken :=
  { t with is_used := true }

/-- `account.models.PasswordResetToken` (structurally identical to the
email-verification token, kept as a separate store as in the source). -/
structure PasswordResetToken where
  id : Nat
  userId : Nat
  token : String
  created_at : Nat
  expires_at : Nat
  is_used : Bool
deriving Repr, DecidableEq

/-- `PasswordResetToken.is_valid`. -/
def PasswordResetToken.is_valid (t : PasswordResetToken) (now : Nat) : Bool :=
  !t.is_used && decide (now < t.expires_at)

/-- `PasswordResetToken.make_as_used`. -/
def PasswordResetToken.make_as_used (t : PasswordResetToken) : PasswordResetToken :=
  { t with is_used := true }

/-- A Python exception surfacing from the embedded code. -/
inductive PyExc where
  | attributeError (name : String)
deriving Repr, DecidableEq

/-- Embedding of a Python bound-method call `token.<m>()` on a
`PasswordResetToken`.  `models.py` defines exactly the mutating method
`make_as_used` on this class; calling any other attribute name raises
`AttributeError` (dynamic attribute lookup). -/
def PasswordResetToken.callMethod (t : PasswordResetToken) (m : String) :
    Except PyExc PasswordResetToken :=
  if m == "make_as_used" then .ok t.make_as_used
  else .error (.attributeError m)

/-- `account.models.LoginAttempt`: append-only audit record. -/
structure LoginAttempt where
  email : String
  ip_address : String
  user_agent : String
  successful : Bool
deriving Repr, DecidableEq

/-- The persistent state: the four object stores plus the outbound email
calls made through `EmailService` (recorded as kind/recipient pairs). -/
structure DB where
  users : List MyUser
  emailTokens : List EmailVerificationToken
  resetTokens : List PasswordResetToken
  loginAttempts : List LoginAttempt
  outbox : List (String × String)
deriving Repr, DecidableEq

/-- `MyUser.objects.get(email=email)` (exact match). -/
def findUserByEmail (db : DB) (email : String) : Option MyUser :=
  db.users.find? (fun u => u.email == email)

/-- `MyUser.objects.get(email__iexact=value)` (case-insensitive match). -/
def findUserByEmailIexact (db : DB) (value : String) : Option MyUser :=
  db.users.find? (fun u => pyLower u.email == pyLower value)

/-- Primary-key lookup of a user. -/
def findUserById (db : DB) (uid : Nat) : Option MyUser :=
  db.users.find? (fun u => u.id == uid)

/-- `user.save(...)`: write-back by primary key. -/
def DB.updateUser (db : DB) (u : MyUser) : DB :=
  { db with users := db.users.map (fun v => if v.id == u.id then u else v) }

/-- `token_obj.save(...)` for an email-verification token. -/
def DB.updateEmailToken (db : DB) (t : EmailVerificationToken) : DB :=
  { db with emailTokens := db.emailTokens.map (fun x => if x.id == t.id then t else x) }

/-- `token_obj.save(...)` for a password-reset token. -/
def DB.updateResetToken (db : DB) (t : PasswordResetToken) : DB :=
  { db with resetTokens := db.resetTokens.map (fun x => if x.id == t.id then t else x) }

/-- Fresh primary key for a new user row. -/
def freshUserId (db : DB) : Nat :=
  db.users.foldr (fun u m => max (u.id + 1) m) 0

/-- Fresh primary key for a new email-verification token row. -/
def freshEmailTokenId (db : DB) : Nat :=
  db.emailTokens.foldr (fun t m => max (t.id + 1) m) 0

/-- Fresh primary key for a new password-reset token row. -/
def freshResetTokenId (db : DB) : Nat :=
  db.resetTokens.foldr (fun t m => max (t.id + 1) m) 0

/-- `EmailService.send_verification_email` (`utils.py`): fire-and-forget,
recorded in the outbox. -/
def EmailService.send_verification_email (db : DB) (u : MyUser) : DB :=
  { db with outbox := db.outbox ++ [("verification", u.email)] }

/-- `EmailService.send_password_reset_email`. -/
def EmailService.send_password_reset_email (db : DB) (u : MyUser) : DB :=
  { db with outbox := db.outbox ++ [("password_reset", u.email)] }

/-- `EmailService.send_welcome_email`. -/
def EmailService.send_welcome_email (db : DB) (u : MyUser) : DB :=
  { db with outbox := db.outbox ++ [("welcome", u.email)] }

/-- `EmailService.send_password_changed_email`. -/
def EmailService.send_password_changed_email (db : DB) (u : MyUser) : DB :=
  { db with outbox := db.outbox ++ [("password_changed", u.email)] }

/-- Django's global `validate_password` validators are configured in the
project settings module, which is not under `src/`.
Modelled from the spec: registration/reset `fails(WeakPassword)`; the only
concrete strength bound visible in `serializers.py` is the serializer
fields' `min_length=8`, so password strength is modelled as that bound. -/
def validate_password (pw : String) : Bool := 8 ≤ pw.length

/-- `UserRegistrationSerializer.validate_email`: case-insensitive
uniqueness, lower-casing the accepted value. -/
def UserRegistrationSerializer.validate_email (db : DB) (value : String) :
    Except String String :=
  if db.users.any (fun u => pyLower u.email == pyLower value) then
    .error "A user with this email already exists."
  else .ok (pyLower value)

/-- `UserRegistrationSerializer.validate_name`: the trimmed name must have
at least 2 characters; the accepted value is the trimmed name. -/
def UserRegistrationSerializer.validate_name (value : String) :
    Except String String :=
  if (pyStrip value).length < 2 then
    .error "Name must be at least 2 characters long."
  else .ok (pyStrip value)

/-- Input body of POST /auth/register/. -/
structure RegInput where
  email : String
  name : String
  password : String
  password2 : String
deriving Repr, DecidableEq

/-- `UserRegistrationSerializer.is_valid`: field validators for email and
name, the password field's `min_length=8`, then the object-level `validate`
(passwords match, strength).  Errors are (field, message) pairs; success
yields the validated (email, name) pair. -/
def UserRegistrationSerializer.is_valid (db : DB) (d : RegInput) :
    Except (String × String) (String × String) :=
  match UserRegistrationSerializer.validate_email db d.email with
  | .error m => .error ("email", m)
  | .ok em =>
    match UserRegistrationSerializer.validate_name d.name with
    | .error m => .error ("name", m)
    | .ok nm =>
      if d.password.length < 8 then
        .error ("password", "Ensure this field has at least 8 characters.")
      else if d.password != d.password2 then
        .error ("password2", "Passwords do not match.")
      else if !validate_password d.password then
        .error ("password", "This password is too weak.")
      else .ok (em, nm)

/-- `UserRegistrationSerializer.create`: create the (unverified, active)
user, issue a 24h email-verification token and send the verification
email.  The random `secrets.token_urlsafe(32)` value is passed in as
`tokenStr`. -/
def UserRegistrationSerializer.create (db : DB) (email name password : String)
    (tokenStr : String) (now : Nat) : DB × MyUser :=
  let u : MyUser :=
    { id := freshUserId db, email := email, name := name,
      passwordHash := hashPassword password,
      is_active := true, is_staff := false, is_superuser := false,
      email_verified := false }
  let db1 := { db with users := db.users ++ [u] }
  let tok : EmailVerificationToken :=
    { id := freshEmailTokenId db1, userId := u.id, token := tokenStr,
      created_at := now, expires_at := now + 24 * 3600, is_used := false }
  let db2 := { db1 with emailTokens := db1.emailTokens ++ [tok] }
  (EmailService.send_verification_email db2 u, u)

/-- `django.contrib.auth.authenticate` with the default model backend:
find the user by email, check the password, and refuse inactive users. -/
def authenticate (db : DB) (email password : String) : Option MyUser :=
  match findUserByEmail db email with
  | none => none
  | some u => if u.check_password password && u.is_active then some u else none

/-- `UserLoginSerializer.validate`: lower-case the email, require both
fields, look the user up, reject unverified emails before any password
check, then authenticate and reject inactive accounts. -/
def UserLoginSerializer.validate (db : DB) (email password : String) :
    Except String MyUser :=
  let em := pyLower email
  if em == "" || password == "" then
    .error "Email and password are required."
  else
    match findUserByEmail db em with
    | none => .error "Invalid email or password."
    | some u =>
      if !u.email_verified then
        .error "Please verify your email before logging in. Check your inbox for the verification link."
      else
        match authenticate db em password with
        | none => .error "Invalid email or password."
        | some u2 =>
          if !u2.is_active then .error "This account has been deactivated."
          else .ok u2

/-- Kinds of signed JWT credentials. -/
inductive TokenKind where
  | access
  | refresh
deriving Repr, DecidableEq

/-- The wire form of a credential presented in a cookie: either garbage or
a signed claim binding a kind, a user id and an expiry time.  Signature
validity is implicit: `signed` values are exactly the well-signed ones. -/
inductive TokenWire where
  | malformed
  | signed (kind : TokenKind) (userId : Nat) (exp : Nat)
deriving Repr, DecidableEq

/-- An HTTP response as far as the claims observe it: status, the
`success` flag and `message` of the JSON body, cookies set and cookies
deleted. -/
structure HttpResponse where
  status : Nat
  success : Bool
  message : String
  cookiesSet : List (String × TokenWire)
  cookiesDeleted : List String
deriving Repr, DecidableEq

/-- Modelled from the spec: the project settings module that wires the
login view's serializer class is not under `src/`.  Per the spec, login
runs the `user_lookup → email_verified_check → password_check` sequence of
`UserLoginSerializer.validate` (which is in `src/`) and on success issues
a credential pair (access TTL 300s, refresh TTL 86400s). -/
def loginSerializerRun (db : DB) (email password : String) (now : Nat) :
    Except String (MyUser × TokenWire × TokenWire) :=
  match UserLoginSerializer.validate db email password with
  | .error m => .error m
  | .ok u => .ok (u, .signed .access u.id (now + 300), .signed .refresh u.id (now + 86400))

/-- `CustomTokenObtainPairView.post` (`views.py`): any serializer
validation failure is caught and mapped to a generic 401; on success a 200
response sets the `access_token` and `refresh_token` cookies.  No code on
either path writes to the database (in particular, nothing creates a
`LoginAttempt` row). -/
def CustomTokenObtainPairView.post (db : DB) (email password : String) (now : Nat) :
    DB × HttpResponse :=
  match loginSerializerRun db email password now with
  | .error _ =>
    (db, { status := 401, success := false, message := "Invalid email or password.",
           cookiesSet := [], cookiesDeleted := [] })
  | .ok (_, acc, ref) =>
    (db, { status := 200, success := true, message := "Login successful!",
           cookiesSet := [("access_token", acc), ("refresh_token", ref)],
           cookiesDeleted := [] })

/-- `rest_framework_simplejwt` refresh validation (`TokenRefreshSerializer`):
a malformed credential, a credential of the wrong kind, or one whose expiry
is not in the future raises `TokenError`; otherwise a new access credential
(TTL 300s) is minted for the same user. -/
def TokenRefreshSerializer.validate (w : TokenWire) (now : Nat) :
    Except String TokenWire :=
  match w with
  | .malformed => .error "Token is invalid or expired"
  | .signed k uid exp =>
    if k != .refresh then .error "Token has wrong type"
    else if exp ≤ now then .error "Token is invalid or expired"
    else .ok (.signed .access uid (now + 300))

/-- `CustomRefreshTokenView.post` (`views.py`): no `refresh_token` cookie →
401 without touching cookies; a present but invalid cookie → 401, session
expired, both cookies deleted; a valid one → 200 with a new
`access_token` cookie. -/
def CustomRefreshTokenView.post (cookie : Option TokenWire) (now : Nat) :
    HttpResponse :=
  match cookie with
  | none =>
    { status := 401, success := false, message := "No refresh token provided.",
      cookiesSet := [], cookiesDeleted := [] }
  | some w =>
    match TokenRefreshSerializer.validate w now with
    | .error _ =>
      { status := 401, success := false, message := "Session expired. Please log in again.",
        cookiesSet := [], cookiesDeleted := ["access_token", "refresh_token"] }
    | .ok acc =>
      { status := 200, success := true, message := "Token refreshed successfully.",
        cookiesSet := [("access_token", acc)], cookiesDeleted := [] }

/-- `simplejwt` access-token validation used by `get_validated_token`:
yields the claimed user id, or an error for malformed, wrong-kind or
expired credentials (`InvalidToken`, an `AuthenticationFailed` subclass). -/
def get_validated_token (w : TokenWire) (now : Nat) : Except String Nat :=
  match w with
  | .malformed => .error "Given token not valid for any token type"
  | .signed k uid exp =>
    if k != .access then .error "Given token not valid for any token type"
    else if exp ≤ now then .error "Given token not valid for any token type"
    else .ok uid

/-- `CookieJWTAuthentication.authenticate` (`authentication.py`): no
cookie → `None`; invalid credential or unknown user → raise
(`AuthenticationFailed`, re-raised by the handler); then reject inactive
users and unverified non-superusers; otherwise authenticate the user. -/
def CookieJWTAuthentication.authenticate (db : DB) (cookie : Option TokenWire)
    (now : Nat) : Except String (Option MyUser) :=
  match cookie with
  | none => .ok none
  | some w =>
    match get_validated_token w now with
    | .error m => .error m
    | .ok uid =>
      match findUserById db uid with
      | none => .error "User not found"
      | some u =>
        if !u.is_active then .error "User account is disabled."
        else if !u.email_verified && !u.is_superuser then .error "Email not verified."
        else .ok (some u)

/-- `EmailVerificationToken.objects.get(token=value)`. -/
def findEmailTokenByString (db : DB) (value : String) : Option EmailVerificationToken :=
  db.emailTokens.find? (fun t => t.token == value)

/-- `PasswordResetToken.objects.get(token=value)`. -/
def findResetTokenByString (db : DB) (value : String) : Option PasswordResetToken :=
  db.resetTokens.find? (fun t => t.token == value)

/-- `EmailVerificationSerializer.validate_token`: look the token up (with
`select_related('user')`, so the owning user row is fetched with it; the
foreign-key constraint makes a missing user row impossible, and the model
treats it as not-found), then refuse used and expired tokens with their
distinct messages. -/
def EmailVerificationSerializer.validate_token (db : DB) (value : String)
    (now : Nat) : Except String (EmailVerificationToken × MyUser) :=
  match findEmailTokenByString db value with
  | none => .error "Invalid verification token."
  | some t =>
    match findUserById db t.userId with
    | none => .error "Invalid verification token."
    | some u =>
      if !(t.is_valid now) then
        if t.is_used then .error "This verification link has already been used."
        else .error "This verification link has expired. Please request a new one."
      else .ok (t, u)

/-- `EmailVerificationSerializer.save`: set `email_verified`, save the
user, then mark the token used. -/
def EmailVerificationSerializer.save (db : DB) (t : EmailVerificationToken)
    (u : MyUser) : DB × MyUser :=
  let u1 := { u with email_verified := true }
  let db1 := db.updateUser u1
  let db2 := db1.updateEmailToken t.make_as_used
  (db2, u1)

/-- `ResendVerificationSerializer.validate_email`: the email must belong
to an existing, not-yet-verified account; the accepted value is the user. -/
def ResendVerificationSerializer.validate_email (db : DB) (value : String) :
    Except String MyUser :=
  match findUserByEmailIexact db value with
  | none => .error "No account found with this email address."
  | some u =>
    if u.email_verified then .error "This email is already verified."
    else .ok u

/-- `ResendVerificationSerializer.save`: mark every unused
email-verification token of the user used, create a fresh 24h token and
send the verification email. -/
def ResendVerificationSerializer.save (db : DB) (u : MyUser) (tokenStr : String)
    (now : Nat) : DB × MyUser :=
  let marked := db.emailTokens.map
    (fun t => if t.userId == u.id && !t.is_used then { t with is_used := true } else t)
  let db1 := { db with emailTokens := marked }
  let tok : EmailVerificationToken :=
    { id := freshEmailTokenId db1, userId := u.id, token := tokenStr,
      created_at := now, expires_at := now + 24 * 3600, is_used := false }
  let db2 := { db1 with emailTokens := db1.emailTokens ++ [tok] }
  (EmailService.send_verification_email db2 u, u)

/-- `PasswordResetRequestSerializer.validate_email`: an unknown email is
accepted as the lower-cased string (existence is not revealed); an
existing unverified account is refused; an existing verified account is
accepted as the user. -/
def PasswordResetRequestSerializer.validate_email (db : DB) (value : String) :
    Except String (Sum String MyUser) :=
  match findUserByEmailIexact db value with
  | none => .ok (.inl (pyLower value))
  | some u =>
    if !u.email_verified then .error "Please verify your email first."
    else .ok (.inr u)

/-- `PasswordResetRequestSerializer.save`: silently no-op when validation
accepted a plain string (unknown email); otherwise mark every unused reset
token of the user used, create a fresh 2h token and send the reset email. -/
def PasswordResetRequestSerializer.save (db : DB) (v : Sum String MyUser)
    (tokenStr : String) (now : Nat) : DB × Option MyUser :=
  match v with
  | .inl _ => (db, none)
  | .inr u =>
    let marked := db.resetTokens.map
      (fun t => if t.userId == u.id && !t.is_used then { t with is_used := true } else t)
    let db1 := { db with resetTokens := marked }
    let tok : PasswordResetToken :=
      { id := freshResetTokenId db1, userId := u.id, token := tokenStr,
        created_at := now, expires_at := now + 2 * 3600, is_used := false }
    let db2 := { db1 with resetTokens := db1.resetTokens ++ [tok] }
    (EmailService.send_password_reset_email db2 u, some u)

/-- `PasswordResetRequestView.post`: validation failure → 400 with the
field error; otherwise run `save` and answer the fixed anti-enumeration
success message. -/
def PasswordResetRequestView.post (db : DB) (email tokenStr : String) (now : Nat) :
    DB × HttpResponse :=
  match PasswordResetRequestSerializer.validate_email db email with
  | .error m =>
    (db, { status := 400, success := false, message := m,
           cookiesSet := [], cookiesDeleted := [] })
  | .ok v =>
    let r := PasswordResetRequestSerializer.save db v tokenStr now
    (r.1, { status := 200, success := true,
            message := "If an account exists with this email, you will receive a password reset link.",
            cookiesSet := [], cookiesDeleted := [] })

/-- `PasswordResetConfirmSerializer.validate_token`: analogous to the
email-verification case, over the reset-token store. -/
def PasswordResetConfirmSerializer.validate_token (db : DB) (value : String)
    (now : Nat) : Except String (PasswordResetToken × MyUser) :=
  match findResetTokenByString db value with
  | none => .error "Invalid reset token."
  | some t =>
    match findUserById db t.userId with
    | none => .error "Invalid reset token."
    | some u =>
      if !(t.is_valid now) then
        if t.is_used then .error "This reset link has already been used."
        else .error "This reset link has expired. Please request a new one."
      else .ok (t, u)

/-- `PasswordResetConfirmSerializer.validate`: passwords must match and
pass strength validation (the password field also carries `min_length=8`). -/
def PasswordResetConfirmSerializer.validate (password password2 : String) :
    Except (String × String) Unit :=
  if password.length < 8 then
    .error ("password", "Ensure this field has at least 8 characters.")
  else if password != password2 then
    .error ("password2", "Passwords do not match.")
  else if !validate_password password then
    .error ("password", "This password is too weak.")
  else .ok ()

/-- `PasswordResetConfirmSerializer.save`, exactly as written in
`serializers.py`: set and save the new password, then call
`token_obj.mark_as_used()` — an attribute the model does not define (its
method is `make_as_used`), so the call raises `AttributeError` after the
password write has already been committed; only if that call succeeded
would the redeemed token be saved and the sibling unused reset tokens of
the user (all but `token_obj.id`) be marked used. -/
def PasswordResetConfirmSerializer.save (db : DB) (t : PasswordResetToken)
    (u : MyUser) (password : String) : DB × Except PyExc MyUser :=
  let u1 := u.set_password password
  let db1 := db.updateUser u1
  match t.callMethod "mark_as_used" with
  | .error e => (db1, .error e)
  | .ok t1 =>
    let db2 := db1.updateResetToken t1
    let siblingsMarked := db2.resetTokens.map
      (fun x => if x.userId == u.id && !x.is_used && x.id != t.id then { x with is_used := true } else x)
    let db3 := { db2 with resetTokens := siblingsMarked }
    (db3, .ok u1)

/-- `PasswordResetConfirmView.post`: serializer errors → 400; an exception
escaping `save` is caught by the generic handler → 500 (the writes `save`
made before raising are kept: each `save()` call commits on its own, there
is no enclosing transaction); success → 200 and the password-changed
notification. -/
def PasswordResetConfirmView.post (db : DB) (tokenStr password password2 : String)
    (now : Nat) : DB × HttpResponse :=
  match PasswordResetConfirmSerializer.validate_token db tokenStr now with
  | .error m =>
    (db, { status := 400, success := false, message := m,
           cookiesSet := [], cookiesDeleted := [] })
  | .ok (t, u) =>
    match PasswordResetConfirmSerializer.validate password password2 with
    | .error e =>
      (db, { status := 400, success := false, message := e.2,
             cookiesSet := [], cookiesDeleted := [] })
    | .ok _ =>
      match PasswordResetConfirmSerializer.save db t u password with
      | (db1, .error _) =>
        (db1, { status := 500, success := false,
                message := "An error occurred. Please try again.",
                cookiesSet := [], cookiesDeleted := [] })
      | (db1, .ok u1) =>
        (EmailService.send_password_changed_email db1 u1,
         { status := 200, success := true,
           message := "Password reset successfully! You can now log in with your new password.",
           cookiesSet := [], cookiesDeleted := [] })

/-! Concrete stores used by the closed scenario theorems. -/

/-- A verified user holding password `oldpass123`. -/
def aliceUser : MyUser :=
  { id := 1, email := "alice@x.com", name := "Alice",
    passwordHash := hashPassword "oldpass123",
    is_active := true, is_staff := false, is_superuser := false,
    email_verified := true }

/-- Store with Alice owning two live (unused, unexpired) reset tokens. -/
def resetDb : DB :=
  { users := [aliceUser],
    emailTokens := [],
    resetTokens :=
      [{ id := 1, userId := 1, token := "tokA", created_at := 0,
         expires_at := 7200, is_used := false },
       { id := 2, userId := 1, token := "tokB", created_at := 0,
         expires_at := 7200, is_used := false }],
    loginAttempts := [], outbox := [] }

/-- An unverified user holding password `secret123`. -/
def bobUser : MyUser :=
  { id := 2, email := "bob@x.com", name := "Bob",
    passwordHash := hashPassword "secret123",
    is_active := true, is_staff := false, is_superuser := false,
    email_verified := false }

/-- Store containing only the unverified Bob. -/
def bobDb : DB :=
  { users := [bobUser], emailTokens := [], resetTokens := [],
    loginAttempts := [], outbox := [] }

/-- The empty store. -/
def emptyDb : DB :=
  { users := [], emailTokens := [], resetTokens := [],
    loginAttempts := [], outbox := [] }

/-- A concrete registration input with a padded name. -/
def danReg : RegInput :=
  { email := "dan@x.com", name := "  Dan  ",
    password := "password1", password2 := "password1" }

/-- An unverified user owning one live token of each kind in `carolDb`. -/
def carolUser : MyUser :=
  { id := 3, email := "carol@x.com", name := "Carol",
    passwordHash := hashPassword "carolpass1",
    is_active := true, is_staff := false, is_superuser := false,
    email_verified := false }

/-- Store with Carol owning one live verification token and one live
reset token. -/
def carolDb : DB :=
  { users := [carolUser],
    emailTokens := [{ id := 1, userId := 3, token := "oldE", created_at := 0,
                      expires_at := 1000, is_used := false }],
    resetTokens := [{ id := 1, userId := 3, token := "oldR", created_at := 0,
                      expires_at := 1000, is_used := false }],
    loginAttempts := [], outbox := [] }

/-- An unverified superuser. -/
def samUser : MyUser :=
  { id := 4, email := "sam@x.com", name := "Sam",
    passwordHash := hashPassword "sampass12",
    is_active := true, is_staff := true, is_superuser := true,
    email_verified := false }

/-- Store with the unverified regular Bob and the unverified superuser
Sam. -/
def c9Db : DB :=
  { users := [bobUser, samUser], emailTokens := [], resetTokens := [],
    loginAttempts := [], outbox := [] }

/-! Helper lemmas about primary-key write-backs and lookups. -/

/-- After replacing the rows whose id matches a found token's id by its
used copy, lookup by token string finds the used copy. -/
theorem findToken_after_markUsed (l : List EmailVerificationToken) (v : String)
    (t : EmailVerificationToken)
    (hfind : l.find? (fun x => x.token == v) = some t) :
    (l.map (fun x => if x.id == t.id then t.make_as_used else x)).find?
      (fun x => x.token == v) = some t.make_as_used := by
  induction l with
  | nil => simp at hfind
  | cons h l ih =>
    simp only [List.find?_cons] at hfind
    by_cases hp : (h.token == v) = true
    · rw [hp] at hfind
      simp only [] at hfind
      injection hfind with hfind
      subst hfind
      simp only [List.map_cons, List.find?_cons]
      rw [if_pos (by simp)]
      have : (h.make_as_used.token == v) = true := hp
      rw [this]
    · rw [Bool.of_not_eq_true hp] at hfind
      simp only [] at hfind
      have hmem0 := List.find?_some hfind
      have hmem : (t.token == v) = true := hmem0
      simp only [List.map_cons, List.find?_cons]
      by_cases hid : (h.id == t.id) = true
      · rw [if_pos hid]
        have : (t.make_as_used.token == v) = true := hmem
        rw [this]
      · rw [if_neg hid]
        rw [Bool.of_not_eq_true hp]
        exact ih hfind

/-- After replacing the rows whose id matches a found user's id by an
updated copy with the same id, lookup by id finds the updated copy. -/
theorem findUser_after_update (l : List MyUser) (uid : Nat) (u u1 : MyUser)
    (hfind : l.find? (fun x => x.id == uid) = some u)
    (hid : u1.id = u.id) :
    (l.map (fun v => if v.id == u1.id then u1 else v)).find?
      (fun x => x.id == uid) = some u1 := by
  have huid0 := List.find?_some hfind
  have huid : (u.id == uid) = true := huid0
  have huid2 : u.id = uid := by simpa using huid
  induction l with
  | nil => simp at hfind
  | cons h l ih =>
    simp only [List.find?_cons] at hfind
    by_cases hp : (h.id == uid) = true
    · rw [hp] at hfind
      simp only [] at hfind
      injection hfind with hfind
      subst hfind
      simp only [List.map_cons, List.find?_cons]
      rw [if_pos (by simp [hid])]
      have : (u1.id == uid) = true := by simp [hid, huid2]
      rw [this]
    · rw [Bool.of_not_eq_true hp] at hfind
      simp only [] at hfind
      simp only [List.map_cons, List.find?_cons]
      have hne : (h.id == u1.id) = false := by
        rw [hid, huid2]
        simpa using hp
      rw [if_neg (by simp [hne])]
      rw [Bool.of_not_eq_true hp]
      exact ih hfind


/-- Claim C1: the spec says a successful password-reset confirm updates the
password, marks the redeemed token used and invalidates every other unused
reset token of the user.  The code instead raises `AttributeError` by
calling the undefined `mark_as_used` right after the password write, so
the confirm returns 500 with the password already changed while both the
redeemed token and its sibling are still unused (no token is invalidated,
so previously issued reset tokens stay redeemable). -/
theorem C1_reset_confirm_leaves_tokens_unused :
    (PasswordResetConfirmView.post resetDb "tokA" "newpass123" "newpass123" 100).2.status = 500 ∧
    (PasswordResetConfirmView.post resetDb "tokA" "newpass123" "newpass123" 100).2.success = false ∧
    (findUserById (PasswordResetConfirmView.post resetDb "tokA" "newpass123" "newpass123" 100).1 1).map
        MyUser.passwordHash = some (hashPassword "newpass123") ∧
    (findResetTokenByString (PasswordResetConfirmView.post resetDb "tokA" "newpass123" "newpass123" 100).1 "tokA").map
        PasswordResetToken.is_used = some false ∧
    (findResetTokenByString (PasswordResetConfirmView.post resetDb "tokA" "newpass123" "newpass123" 100).1 "tokB").map
        PasswordResetToken.is_used = some false := by
  exact ⟨rfl, rfl, rfl, rfl, rfl⟩

/-- Claim C4: redemption of a reset token should change the password and
consume the token atomically.  `PasswordResetConfirmSerializer.save`
writes the new password and then, in every execution, raises
`AttributeError` on the undefined `mark_as_used`, so the state it leaves
has the password changed while the reset-token store is completely
untouched — the redeemed token is still unused. -/
theorem C4_reset_confirm_save_raises_after_password_write (db : DB)
    (t : PasswordResetToken) (u : MyUser) (pw : String) :
    PasswordResetConfirmSerializer.save db t u pw =
      (db.updateUser (u.set_password pw), .error (.attributeError "mark_as_used")) ∧
    (PasswordResetConfirmSerializer.save db t u pw).1.resetTokens = db.resetTokens := by
  have h : PasswordResetConfirmSerializer.save db t u pw =
      (db.updateUser (u.set_password pw), .error (.attributeError "mark_as_used")) := by
    simp [PasswordResetConfirmSerializer.save, PasswordResetToken.callMethod]
  refine ⟨h, ?_⟩
  rw [h]
  rfl

/-- Claim C2: the spec says every login attempt (success or failure) is
recorded in the login-attempt log with email, IP, user agent and outcome.
The login view performs no database write at all: the state after the
request equals the state before, so in particular the login-attempt log
never receives a record. -/
theorem C2_login_writes_no_attempt (db : DB) (email password : String) (now : Nat) :
    (CustomTokenObtainPairView.post db email password now).1 = db ∧
    (CustomTokenObtainPairView.post db email password now).1.loginAttempts = db.loginAttempts := by
  have h : (CustomTokenObtainPairView.post db email password now).1 = db := by
    unfold CustomTokenObtainPairView.post
    rcases loginSerializerRun db email password now with m | ⟨u, acc, ref⟩
    · rfl
    · rfl
  exact ⟨h, by rw [h]⟩

/-- Claim C7 counterexample: a refresh request with a missing refresh
cookie is a validation failure, but its 401 response clears no cookie and
does not report the session-expired message, contradicting the claim that
every validation failure clears both cookies. -/
theorem C7_missing_cookie_clears_nothing :
    CustomRefreshTokenView.post none 5 =
      { status := 401, success := false, message := "No refresh token provided.",
        cookiesSet := [], cookiesDeleted := [] } ∧
    (CustomRefreshTokenView.post none 5).cookiesDeleted ≠ ["access_token", "refresh_token"] ∧
    (CustomRefreshTokenView.post none 5).message ≠ "Session expired. Please log in again." := by
  refine ⟨rfl, by decide, by decide⟩

/-- Claim C7 (amended): when a refresh cookie is present but fails
validation (malformed, wrong kind or expired), the response is 401,
reports the expired session, clears both cookies and issues no new access
credential; when the cookie is missing the response is 401 with a
distinct message and no cookie is cleared (and still no credential). -/
theorem C7_refresh_fail_closed (w : TokenWire) (now : Nat) (e : String)
    (h : TokenRefreshSerializer.validate w now = .error e) :
    CustomRefreshTokenView.post (some w) now =
      { status := 401, success := false,
        message := "Session expired. Please log in again.",
        cookiesSet := [], cookiesDeleted := ["access_token", "refresh_token"] } ∧
    CustomRefreshTokenView.post none now =
      { status := 401, success := false, message := "No refresh token provided.",
        cookiesSet := [], cookiesDeleted := [] } := by
  constructor
  · simp [CustomRefreshTokenView.post, h]
  · rfl

/-- Claim C7 witness: the amended refresh behavior at a concrete malformed
cookie and at a concrete missing cookie. -/
theorem C7_refresh_fail_closed_witness :
    CustomRefreshTokenView.post (some TokenWire.malformed) 0 =
      { status := 401, success := false,
        message := "Session expired. Please log in again.",
        cookiesSet := [], cookiesDeleted := ["access_token", "refresh_token"] } ∧
    CustomRefreshTokenView.post none 0 =
      { status := 401, success := false, message := "No refresh token provided.",
        cookiesSet := [], cookiesDeleted := [] } :=
  C7_refresh_fail_closed TokenWire.malformed 0 "Token is invalid or expired" rfl


/-- Claim C3 counterexample: the claim says the reset-request response is
the same success response whether or not the account exists or is
verified; for the existing unverified `bob@x.com` the endpoint answers a
400 failure, while for the unknown `carol@x.com` it answers the 200
success message — the response depends on verification status. -/
theorem C3_unverified_email_gets_400 :
    (PasswordResetRequestView.post bobDb "bob@x.com" "t1" 0).2.success = false ∧
    (PasswordResetRequestView.post bobDb "bob@x.com" "t1" 0).2.status = 400 ∧
    (PasswordResetRequestView.post bobDb "carol@x.com" "t1" 0).2.success = true ∧
    (PasswordResetRequestView.post bobDb "carol@x.com" "t1" 0).2.status = 200 ∧
    (PasswordResetRequestView.post bobDb "bob@x.com" "t1" 0).2 ≠
      (PasswordResetRequestView.post bobDb "carol@x.com" "t1" 0).2 := by
  exact ⟨rfl, rfl, rfl, rfl, by decide⟩

/-- Claim C3 (amended): the reset request returns the same success
response whether or not an account with the email exists, issues a token
and sends a notification only when the account exists and is verified,
and performs no state change otherwise; however, when the account exists
and is NOT verified the endpoint returns a 400 validation failure
(revealing verification status), not the success response. -/
theorem C3_reset_request_response (db : DB) (email tokenStr : String) (now : Nat) :
    match findUserByEmailIexact db email with
    | none =>
        PasswordResetRequestView.post db email tokenStr now =
          (db, { status := 200, success := true,
                 message := "If an account exists with this email, you will receive a password reset link.",
                 cookiesSet := [], cookiesDeleted := [] })
    | some u =>
        if u.email_verified then
          (PasswordResetRequestView.post db email tokenStr now).2 =
            { status := 200, success := true,
              message := "If an account exists with this email, you will receive a password reset link.",
              cookiesSet := [], cookiesDeleted := [] } ∧
          (PasswordResetRequestView.post db email tokenStr now).1.outbox =
            db.outbox ++ [("password_reset", u.email)] ∧
          (PasswordResetRequestView.post db email tokenStr now).1.resetTokens.length =
            db.resetTokens.length + 1
        else
          (PasswordResetRequestView.post db email tokenStr now).2.status = 400 ∧
          (PasswordResetRequestView.post db email tokenStr now).2.success = false ∧
          (PasswordResetRequestView.post db email tokenStr now).1 = db := by
  cases hf : findUserByEmailIexact db email with
  | none =>
    simp only []
    simp [PasswordResetRequestView.post, PasswordResetRequestSerializer.validate_email,
      PasswordResetRequestSerializer.save, hf]
  | some u =>
    simp only []
    by_cases hv : u.email_verified
    · rw [if_pos hv]
      refine ⟨?_, ?_, ?_⟩ <;>
        simp [PasswordResetRequestView.post, PasswordResetRequestSerializer.validate_email,
          PasswordResetRequestSerializer.save, EmailService.send_password_reset_email, hf, hv]
    · rw [if_neg hv]
      refine ⟨?_, ?_, ?_⟩ <;>
        simp [PasswordResetRequestView.post, PasswordResetRequestSerializer.validate_email,
          PasswordResetRequestSerializer.save, hf, hv]

/-- Claim C5 counterexample: Bob exists with the correct password
`secret123` and `email_verified = false`; the claim says login fails with
a distinct verification-required message, but the login response carries
the generic `Invalid email or password.` (the view replaces every
serializer error with it), not the distinct message. -/
theorem C5_response_message_not_distinct :
    (findUserByEmail bobDb "bob@x.com").map (fun u => u.check_password "secret123") = some true ∧
    (CustomTokenObtainPairView.post bobDb "bob@x.com" "secret123" 0).2.status = 401 ∧
    (CustomTokenObtainPairView.post bobDb "bob@x.com" "secret123" 0).2.message =
      "Invalid email or password." ∧
    (CustomTokenObtainPairView.post bobDb "bob@x.com" "secret123" 0).2.message ≠
      "Please verify your email before logging in. Check your inbox for the verification link." := by
  exact ⟨rfl, rfl, rfl, by decide⟩

/-- Claim C5 (amended): for an existing account with
`email_verified = false`, the login serializer rejects the attempt with
the verification-required message before any password check (the outcome
is the same for every supplied password, including the correct one), and
the view returns 401 with no cookies set and no state change; the HTTP
response, however, carries the generic `Invalid email or password.`
because the view maps every serializer failure to it, so the distinct
message never reaches the client. -/
theorem C5_unverified_login_rejected_before_password (db : DB) (email pw : String)
    (u : MyUser) (now : Nat)
    (h1 : findUserByEmail db (pyLower email) = some u)
    (h2 : u.email_verified = false)
    (h3 : (pyLower email == "") = false) (h4 : (pw == "") = false) :
    UserLoginSerializer.validate db email pw =
      .error "Please verify your email before logging in. Check your inbox for the verification link." ∧
    (CustomTokenObtainPairView.post db email pw now).2.status = 401 ∧
    (CustomTokenObtainPairView.post db email pw now).2.message = "Invalid email or password." ∧
    (CustomTokenObtainPairView.post db email pw now).2.cookiesSet = [] ∧
    (CustomTokenObtainPairView.post db email pw now).1 = db := by
  have hval : UserLoginSerializer.validate db email pw =
      .error "Please verify your email before logging in. Check your inbox for the verification link." := by
    simp [UserLoginSerializer.validate, h1, h2, h3, h4]
  refine ⟨hval, ?_, ?_, ?_, ?_⟩ <;>
    simp [CustomTokenObtainPairView.post, loginSerializerRun, hval]

/-- Claim C5 witness: the amended statement at Bob with his correct
password. -/
theorem C5_unverified_login_rejected_before_password_witness :
    UserLoginSerializer.validate bobDb "bob@x.com" "secret123" =
      .error "Please verify your email before logging in. Check your inbox for the verification link." ∧
    (CustomTokenObtainPairView.post bobDb "bob@x.com" "secret123" 0).2.status = 401 ∧
    (CustomTokenObtainPairView.post bobDb "bob@x.com" "secret123" 0).2.message =
      "Invalid email or password." ∧
    (CustomTokenObtainPairView.post bobDb "bob@x.com" "secret123" 0).2.cookiesSet = [] ∧
    (CustomTokenObtainPairView.post bobDb "bob@x.com" "secret123" 0).1 = bobDb :=
  C5_unverified_login_rejected_before_password bobDb "bob@x.com" "secret123" bobUser 0
    rfl rfl rfl rfl

/-- Claim C6: issuing a new email-verification token (resend) or a new
password-reset token (reset request) first marks every previously unused
token of that kind for that user as used: afterwards every token of the
user other than the freshly created one is used (so a token that was
valid before the issuance is invalid afterwards), and any token of the
user that is still valid at any time is the fresh one — at most one live
token per (user, kind). -/
theorem C6_issuance_invalidates_prior_tokens (db : DB) (u : MyUser)
    (tokenStr : String) (now now2 : Nat) :
    (∀ t, t ∈ ((ResendVerificationSerializer.save db u tokenStr now).1).emailTokens →
      t.userId = u.id → t.token ≠ tokenStr → t.is_used = true) ∧
    (∀ t, t ∈ ((ResendVerificationSerializer.save db u tokenStr now).1).emailTokens →
      t.userId = u.id → t.is_valid now2 = true →
      t.token = tokenStr ∧ t.expires_at = now + 24 * 3600) ∧
    (∀ t, t ∈ ((PasswordResetRequestSerializer.save db (.inr u) tokenStr now).1).resetTokens →
      t.userId = u.id → t.token ≠ tokenStr → t.is_used = true) ∧
    (∀ t, t ∈ ((PasswordResetRequestSerializer.save db (.inr u) tokenStr now).1).resetTokens →
      t.userId = u.id → t.is_valid now2 = true →
      t.token = tokenStr ∧ t.expires_at = now + 2 * 3600) := by
  refine ⟨?_, ?_, ?_, ?_⟩
  · intro t ht htu htok
    simp only [ResendVerificationSerializer.save, EmailService.send_verification_email,
      List.mem_append, List.mem_map, List.mem_singleton] at ht
    rcases ht with ⟨st, hst, heq⟩ | rfl
    · by_cases hc : (st.userId == u.id && !st.is_used) = true
      · rw [if_pos hc] at heq
        rw [← heq]
      · rw [if_neg hc] at heq
        subst heq
        simp only [Bool.and_eq_true, Bool.not_eq_true', not_and] at hc
        have := hc (by simp [htu])
        simpa using this
    · simp at htok
  · intro t ht htu hval
    simp only [ResendVerificationSerializer.save, EmailService.send_verification_email,
      List.mem_append, List.mem_map, List.mem_singleton] at ht
    rcases ht with ⟨st, hst, heq⟩ | rfl
    · exfalso
      by_cases hc : (st.userId == u.id && !st.is_used) = true
      · rw [if_pos hc] at heq
        rw [← heq] at hval
        simp [EmailVerificationToken.is_valid] at hval
      · rw [if_neg hc] at heq
        subst heq
        simp only [Bool.and_eq_true, Bool.not_eq_true', not_and] at hc
        have := hc (by simp [htu])
        simp [EmailVerificationToken.is_valid, this] at hval
    · exact ⟨rfl, rfl⟩
  · intro t ht htu htok
    simp only [PasswordResetRequestSerializer.save, EmailService.send_password_reset_email,
      List.mem_append, List.mem_map, List.mem_singleton] at ht
    rcases ht with ⟨st, hst, heq⟩ | rfl
    · by_cases hc : (st.userId == u.id && !st.is_used) = true
      · rw [if_pos hc] at heq
        rw [← heq]
      · rw [if_neg hc] at heq
        subst heq
        simp only [Bool.and_eq_true, Bool.not_eq_true', not_and] at hc
        have := hc (by simp [htu])
        simpa using this
    · simp at htok
  · intro t ht htu hval
    simp only [PasswordResetRequestSerializer.save, EmailService.send_password_reset_email,
      List.mem_append, List.mem_map, List.mem_singleton] at ht
    rcases ht with ⟨st, hst, heq⟩ | rfl
    · exfalso
      by_cases hc : (st.userId == u.id && !st.is_used) = true
      · rw [if_pos hc] at heq
        rw [← heq] at hval
        simp [PasswordResetToken.is_valid] at hval
      · rw [if_neg hc] at heq
        subst heq
        simp only [Bool.and_eq_true, Bool.not_eq_true', not_and] at hc
        have := hc (by simp [htu])
        simp [PasswordResetToken.is_valid, this] at hval
    · exact ⟨rfl, rfl⟩

/-- Claim C6 witness: at Carol's concrete store, after resending with the
fresh string `newE`, her updated old token is marked used, and the only
token of hers still valid is the fresh one. -/
theorem C6_issuance_invalidates_prior_tokens_witness :
    ({ id := 1, userId := 3, token := "oldE", created_at := 0, expires_at := 1000,
       is_used := true } : EmailVerificationToken).is_used = true ∧
    ({ id := 2, userId := 3, token := "newE", created_at := 5,
       expires_at := 5 + 24 * 3600, is_used := false } : EmailVerificationToken).token
      = "newE" := by
  have h := C6_issuance_invalidates_prior_tokens carolDb carolUser "newE" 5 6
  exact ⟨h.1 _ (by decide) (by decide) (by decide),
         (h.2.1 _ (by decide) (by decide) (by decide)).1⟩

/-- Claim C8: a token is valid iff its used flag is false and the current
time is strictly before its expiry (for both token variants); and once a
token has been successfully redeemed by the email-verification save, a
second redemption attempt of the same token string fails with the
already-used error. -/
theorem C8_token_validity_and_single_use (t0 : EmailVerificationToken)
    (r0 : PasswordResetToken) (db : DB) (value : String) (now now2 now3 : Nat)
    (t : EmailVerificationToken) (u : MyUser)
    (h : EmailVerificationSerializer.validate_token db value now = .ok (t, u)) :
    (t0.is_valid now3 = true ↔ (t0.is_used = false ∧ now3 < t0.expires_at)) ∧
    (r0.is_valid now3 = true ↔ (r0.is_used = false ∧ now3 < r0.expires_at)) ∧
    EmailVerificationSerializer.validate_token
      (EmailVerificationSerializer.save db t u).1 value now2 =
      .error "This verification link has already been used." := by
  refine ⟨?_, ?_, ?_⟩
  · simp [EmailVerificationToken.is_valid, Bool.and_eq_true, Bool.not_eq_true']
  · simp [PasswordResetToken.is_valid, Bool.and_eq_true, Bool.not_eq_true']
  · have hparts : findEmailTokenByString db value = some t ∧
        findUserById db t.userId = some u := by
      unfold EmailVerificationSerializer.validate_token at h
      cases hft : findEmailTokenByString db value with
      | none => rw [hft] at h; simp at h
      | some t1 =>
        rw [hft] at h
        simp only [] at h
        cases hfu : findUserById db t1.userId with
        | none => rw [hfu] at h; simp at h
        | some u1 =>
          rw [hfu] at h
          by_cases hvv : t1.is_valid now = true
          · rw [hvv] at h
            simp only [Bool.not_true, Bool.false_eq_true, if_false] at h
            injection h with h
            injection h with hteq hueq
            subst hteq; subst hueq
            exact ⟨rfl, hfu⟩
          · rw [Bool.of_not_eq_true hvv] at h
            simp only [Bool.not_false, if_true] at h
            cases htu : t1.is_used <;> rw [htu] at h <;> simp at h
    have hfind2 : findEmailTokenByString (EmailVerificationSerializer.save db t u).1 value
        = some t.make_as_used :=
      findToken_after_markUsed db.emailTokens value t hparts.1
    have hfindu : findUserById (EmailVerificationSerializer.save db t u).1
        t.make_as_used.userId = some ({ u with email_verified := true } : MyUser) :=
      findUser_after_update db.users t.userId u ({ u with email_verified := true }) hparts.2 rfl
    unfold EmailVerificationSerializer.validate_token
    rw [hfind2]
    simp only []
    rw [hfindu]
    simp [EmailVerificationToken.is_valid, EmailVerificationToken.make_as_used]

/-- Claim C8 witness: at Carol's concrete store, her live verification
token redeems once, and re-validating the same token string afterwards
yields the already-used error. -/
theorem C8_token_validity_and_single_use_witness :
    (({ id := 1, userId := 3, token := "oldE", created_at := 0, expires_at := 1000,
        is_used := false } : EmailVerificationToken).is_valid 9 = true ↔
      (({ id := 1, userId := 3, token := "oldE", created_at := 0, expires_at := 1000,
          is_used := false } : EmailVerificationToken).is_used = false ∧ 9 < 1000)) ∧
    (({ id := 1, userId := 3, token := "oldR", created_at := 0, expires_at := 1000,
        is_used := false } : PasswordResetToken).is_valid 9 = true ↔
      (({ id := 1, userId := 3, token := "oldR", created_at := 0, expires_at := 1000,
          is_used := false } : PasswordResetToken).is_used = false ∧ 9 < 1000)) ∧
    EmailVerificationSerializer.validate_token
      (EmailVerificationSerializer.save carolDb
        { id := 1, userId := 3, token := "oldE", created_at := 0, expires_at := 1000,
          is_used := false } carolUser).1 "oldE" 7 =
      .error "This verification link has already been used." :=
  C8_token_validity_and_single_use
    { id := 1, userId := 3, token := "oldE", created_at := 0, expires_at := 1000,
      is_used := false }
    { id := 1, userId := 3, token := "oldR", created_at := 0, expires_at := 1000,
      is_used := false }
    carolDb "oldE" 5 7 9
    { id := 1, userId := 3, token := "oldE", created_at := 0, expires_at := 1000,
      is_used := false }
    carolUser rfl

/-- Claim C9: an existing user with `email_verified = false` and
`is_superuser = false` obtains no login-granting access credential: the
login endpoint answers 401 with no cookies (for every password, including
the correct one), and cookie authentication of any presented access
credential bound to that user fails; a user with `email_verified = false`
but `is_superuser = true` is exempt from the restriction — cookie
authentication accepts a valid access credential for them. -/
theorem C9_unverified_user_gets_no_credential (db : DB) (email pw : String)
    (u : MyUser) (now exp : Nat)
    (h1 : findUserByEmail db (pyLower email) = some u)
    (h2 : findUserById db u.id = some u)
    (hv : u.email_verified = false) :
    (u.is_superuser = false →
      (CustomTokenObtainPairView.post db email pw now).2.status = 401 ∧
      (CustomTokenObtainPairView.post db email pw now).2.cookiesSet = [] ∧
      (∀ e2, ∃ m, CookieJWTAuthentication.authenticate db
        (some (.signed .access u.id e2)) now = .error m)) ∧
    (u.is_superuser = true → u.is_active = true → now < exp →
      CookieJWTAuthentication.authenticate db
        (some (.signed .access u.id exp)) now = .ok (some u)) := by
  have hval : ∃ m, UserLoginSerializer.validate db email pw = .error m := by
    by_cases h0 : (pyLower email == "" || pw == "") = true
    · exact ⟨"Email and password are required.", by
        simp only [UserLoginSerializer.validate, h0, if_true]⟩
    · refine ⟨"Please verify your email before logging in. Check your inbox for the verification link.", ?_⟩
      simp only [UserLoginSerializer.validate, h0, if_false, h1, hv,
        Bool.not_false, if_true]
      simp
  obtain ⟨m, hm⟩ := hval
  constructor
  · intro hs
    refine ⟨?_, ?_, ?_⟩
    · simp [CustomTokenObtainPairView.post, loginSerializerRun, hm]
    · simp [CustomTokenObtainPairView.post, loginSerializerRun, hm]
    · intro e2
      by_cases he : e2 ≤ now
      · exact ⟨"Given token not valid for any token type", by
          simp [CookieJWTAuthentication.authenticate, get_validated_token, he]⟩
      · cases hact : u.is_active
        · exact ⟨"User account is disabled.", by
            simp [CookieJWTAuthentication.authenticate, get_validated_token,
              he, h2, hact]⟩
        · exact ⟨"Email not verified.", by
            simp [CookieJWTAuthentication.authenticate, get_validated_token,
              he, h2, hact, hv, hs]⟩
  · intro hs ha hexp
    have he : ¬(exp ≤ now) := by omega
    simp [CookieJWTAuthentication.authenticate, get_validated_token, he, h2,
      ha, hv, hs]

/-- Claim C9 witness: in the concrete store, the unverified regular Bob
gets a 401 from login with his correct password and cookie authentication
rejects an access credential bound to him, while an unexpired access
credential bound to the unverified superuser Sam authenticates. -/
theorem C9_unverified_user_gets_no_credential_witness :
    (CustomTokenObtainPairView.post c9Db "bob@x.com" "secret123" 0).2.status = 401 ∧
    (∃ m, CookieJWTAuthentication.authenticate c9Db
      (some (.signed .access 2 10)) 0 = .error m) ∧
    CookieJWTAuthentication.authenticate c9Db
      (some (.signed .access 4 10)) 0 = .ok (some samUser) := by
  have hb := C9_unverified_user_gets_no_credential c9Db "bob@x.com" "secret123"
    bobUser 0 10 rfl rfl rfl
  have hsm := C9_unverified_user_gets_no_credential c9Db "sam@x.com" "anypass1"
    samUser 0 10 rfl rfl rfl
  exact ⟨(hb.1 rfl).1, (hb.1 rfl).2.2 10, hsm.2 rfl rfl (by decide)⟩

/-- Claim C10: a registration whose name is shorter than 2 characters
after stripping surrounding whitespace fails the name field validator
(even when the raw name is non-empty), and on a successful registration
the validated and stored name is the stripped input. -/
theorem C10_registration_name_trimmed (db : DB) (d : RegInput) (em nm : String)
    (tokenStr : String) (now : Nat)
    (h : UserRegistrationSerializer.is_valid db d = .ok (em, nm)) :
    nm = pyStrip d.name ∧
    (UserRegistrationSerializer.create db em nm d.password tokenStr now).2.name =
      pyStrip d.name ∧
    (∀ v : String, (pyStrip v).length < 2 →
      UserRegistrationSerializer.validate_name v =
        .error "Name must be at least 2 characters long.") := by
  have hnm : nm = pyStrip d.name := by
    unfold UserRegistrationSerializer.is_valid at h
    cases he : UserRegistrationSerializer.validate_email db d.email with
    | error m => rw [he] at h; simp at h
    | ok em1 =>
      rw [he] at h
      simp only [] at h
      unfold UserRegistrationSerializer.validate_name at h
      by_cases hn : (pyStrip d.name).length < 2
      · rw [if_pos hn] at h; simp at h
      · rw [if_neg hn] at h
        simp only [] at h
        split at h
        · simp at h
        · split at h
          · simp at h
          · split at h
            · simp at h
            · injection h with h
              injection h with hem hnm
              exact hnm.symm
  refine ⟨hnm, ?_, ?_⟩
  · exact hnm
  · intro v hv
    unfold UserRegistrationSerializer.validate_name
    rw [if_pos hv]

/-- Claim C10 witness: registering with the padded name `  Dan  ` stores
the stripped `Dan`, and the non-empty padded one-letter name strips below
the bound and is rejected by the name validator. -/
theorem C10_registration_name_trimmed_witness :
    ("Dan" : String) = pyStrip "  Dan  " ∧
    (UserRegistrationSerializer.create emptyDb "dan@x.com" "Dan" "password1"
      "tok1" 0).2.name = pyStrip "  Dan  " ∧
    UserRegistrationSerializer.validate_name "   a   " =
      .error "Name must be at least 2 characters long." := by
  have h := C10_registration_name_trimmed emptyDb danReg "dan@x.com" "Dan" "tok1" 0 rfl
  exact ⟨h.1, h.2.1, h.2.2 "   a   " (by decide)⟩
